import Mathlib

/-
Shallow embedding of the MaPoGo Tutor frontend (React/TypeScript) and of the
spec-described backend quiz validation.

Each React component is embedded as a record of its useState fields together
with pure transition functions: an async handler is modelled as a function
from the pre-call state and the fetch outcome to the post-call state (the
sequence of setState calls determines the final field values).  Fetch
outcomes are an inductive type: a successful response with its JSON payload,
a non-ok HTTP response with its JSON error payload, or a thrown network
error (the catch branch).
-/

namespace MaPoGo

/-- HTTP method of a fetch call; fetch with no options issues a GET. -/
inductive HttpMethod
| get
| post
deriving DecidableEq, Repr

/-- A JS File object as the upload code uses it: name, MIME type, size. -/
structure JFile where
name : String
type : String
size : Nat
deriving DecidableEq, Repr

/-- JS truthiness-based `a.error || fallback` on an optional string field:
an absent field or the empty string is falsy and selects the fallback. -/
def jsOr (a : Option String) (b : String) : String :=
match a with
| none => b
| some s => if s = "" then b else s

/-- JS `s.trim()`: the string without its leading and trailing whitespace. -/
def jsTrim (s : String) : String :=
⟨((s.data.dropWhile Char.isWhitespace).reverse.dropWhile Char.isWhitespace).reverse⟩

/-- Leading decimal-digit run of a character list, `none` when the run is
empty (the NaN case of JS parseInt). -/
def parseDigits (cs : List Char) : Option Nat :=
let ds := cs.takeWhile Char.isDigit
if ds.isEmpty then none
else some (ds.foldl (fun a c => a * 10 + (c.toNat - 48)) 0)

/-- JS `parseInt(s)` restricted to radix 10: skip leading whitespace, read an
optional sign and then a leading run of decimal digits, ignoring the rest of
the string; `none` stands for NaN.  (The hex autodetection branch of parseInt
is unreachable here because the argument is the value of a number input.) -/
def jsParseInt (s : String) : Option Int :=
match s.data.dropWhile Char.isWhitespace with
| '-' :: rest => (parseDigits rest).map (fun n => -(n : Int))
| '+' :: rest => (parseDigits rest).map (fun n => (n : Int))
| cs => (parseDigits cs).map (fun n => (n : Int))

namespace QuizTab

/-- QuizQuestion interface of QuizTab.tsx: question text, options list,
answer string. -/
structure QuizQuestion where
question : String
options : List String
answer : String
deriving DecidableEq, Repr

/-- The useState fields of QuizTab (visibleAnswers, a Set of indices, is
modelled as a list). -/
structure State where
quizDifficulty : String
numQuestions : Int
quiz : List QuizQuestion
isLoading : Bool
visibleAnswers : List Nat
deriving DecidableEq, Repr

/-- Initial state of QuizTab: useState initialisers. -/
def initState : State :=
{ quizDifficulty := "Medium", numQuestions := 5, quiz := [], isLoading := false,
  visibleAnswers := [] }

/-- Outcome of the POST /quiz fetch in handleGenerateQuiz. -/
inductive FetchResult
| ok (quiz : List QuizQuestion)
| httpError (error : String)
| networkError
deriving DecidableEq, Repr

/-- Body of the POST /quiz request built in handleGenerateQuiz. -/
structure QuizRequest where
difficulty : String
num_questions : Int
deriving DecidableEq, Repr

/-- The JSON body handleGenerateQuiz sends: the difficulty state and
`parseInt(numQuestions.toString())`, which is numQuestions itself since the
state holds an integer. -/
def quizRequestOf (st : State) : QuizRequest :=
{ difficulty := st.quizDifficulty, num_questions := st.numQuestions }

/-- handleGenerateQuiz: sets isLoading, clears quiz and visibleAnswers, then
on a good response stores data.quiz; on a non-ok response or a network error
it only writes to the console (returned as the second component) and leaves
no error in the component state; finally clears isLoading. -/
def handleGenerateQuiz (st : State) (res : FetchResult) : State × List String :=
match res with
| .ok quiz =>
    ({ st with quiz := quiz, visibleAnswers := [], isLoading := false }, [])
| .httpError e =>
    ({ st with quiz := [], visibleAnswers := [], isLoading := false },
     ["Error generating quiz: " ++ e])
| .networkError =>
    ({ st with quiz := [], visibleAnswers := [], isLoading := false },
     ["Network error:"])

/-- The option values of the difficulty select element in the JSX. -/
def difficultyOptions : List String := ["Easy", "Medium", "Hard"]

/-- useState initialiser of quizDifficulty. -/
def initialDifficulty : String := "Medium"

/-- onChange of the difficulty select: setQuizDifficulty(e.target.value). -/
def onDifficultyChange (targetValue : String) : String := targetValue

/-- Difficulty state after a sequence of select change events, starting from
the initial value. -/
def difficultyAfter (events : List String) : String :=
events.foldl (fun _ v => onDifficultyChange v) initialDifficulty

/-- onChange of the question-count number input:
`setNumQuestions(parseInt(e.target.value) || 5)`; NaN and 0 are falsy. -/
def onNumQuestionsChange (targetValue : String) : Int :=
match jsParseInt targetValue with
| none => 5
| some n => if n = 0 then 5 else n

end QuizTab

namespace SummaryTab

/-- The useState fields of SummaryTab. -/
structure State where
summary : String
isLoading : Bool
hasGenerated : Bool
deriving DecidableEq, Repr

/-- Initial state of SummaryTab. -/
def initState : State :=
{ summary := "", isLoading := false, hasGenerated := false }

/-- Outcome of the GET /summary fetch in handleGenerateSummary. -/
inductive FetchResult
| ok (summary : String)
| httpError
| networkError
deriving DecidableEq, Repr

/-- A fetch request as the summary tab issues it: url, method, body. -/
structure Request where
url : String
method : HttpMethod
body : Option String
deriving DecidableEq, Repr

/-- The request handleGenerateSummary issues:
`fetch('http://localhost:5000/summary')` with no options is a GET with no
body; the url carries no query string. -/
def summaryRequest : Request :=
{ url := "http://localhost:5000/summary", method := .get, body := none }

/-- handleGenerateSummary: clears summary, then on a good response stores
data.summary and sets hasGenerated; on a non-ok response or a network error
stores a fixed user-visible error text in the summary field. -/
def handleGenerateSummary (st : State) (res : FetchResult) : State :=
match res with
| .ok s => { st with summary := s, hasGenerated := true, isLoading := false }
| .httpError =>
    { st with
        summary := "Error generating summary. Please try again.",
        isLoading := false }
| .networkError =>
    { st with
        summary := "Network error. Please check if the server is running.",
        isLoading := false }

/-- What the summary result area renders: the spinner while loading, the
summary string verbatim inside a pre element when non-empty, otherwise the
placeholder prompt. -/
inductive Display
| loading
| text (s : String)
| placeholder
deriving DecidableEq, Repr

/-- The render branch of the SummaryTab result area. -/
def render (st : State) : Display :=
if st.isLoading then .loading
else if st.summary = "" then .placeholder
else .text st.summary

end SummaryTab

namespace ExplainTab

/-- The useState fields of ExplainTab. -/
structure State where
conceptQuery : String
explanation : String
isLoading : Bool
deriving DecidableEq, Repr

/-- Initial state of ExplainTab. -/
def initState : State :=
{ conceptQuery := "", explanation := "", isLoading := false }

/-- Body of the POST /explain request. -/
structure ExplainRequest where
query : String
deriving DecidableEq, Repr

/-- The guard of handleExplain: `if (!conceptQuery.trim()) return;` means no
request is issued when the trimmed query is empty; otherwise the body
`{ query: conceptQuery }` is sent. -/
def explainRequest (st : State) : Option ExplainRequest :=
if jsTrim st.conceptQuery = "" then none
else some { query := st.conceptQuery }

/-- Outcome of the POST /explain fetch. -/
inductive FetchResult
| ok (explanation : String)
| httpError
| networkError
deriving DecidableEq, Repr

/-- The response handling of handleExplain, reached only when the guard
passed: a good response stores data.explanation; a non-ok response or a
network error stores a fixed user-visible error text. -/
def handleExplainResult (st : State) (res : FetchResult) : State :=
match res with
| .ok e => { st with explanation := e, isLoading := false }
| .httpError =>
    { st with
        explanation := "Error generating explanation. Please try again.",
        isLoading := false }
| .networkError =>
    { st with
        explanation := "Network error. Please check if the server is running.",
        isLoading := false }

end ExplainTab

namespace UploadView

/-- The useState fields of UploadView. -/
structure State where
selectedFile : Option JFile
isUploading : Bool
dragOver : Bool
statusMessage : String
isError : Bool
deriving DecidableEq, Repr

/-- Initial state of UploadView. -/
def initState : State :=
{ selectedFile := none, isUploading := false, dragOver := false,
  statusMessage := "", isError := false }

/-- handleFileSelect: a file whose MIME type is application/pdf becomes the
selected file and clears the status; any other file leaves the selection
unchanged and sets the error status text. -/
def handleFileSelect (st : State) (file : JFile) : State :=
if file.type = "application/pdf" then
  { st with selectedFile := some file, statusMessage := "", isError := false }
else
  { st with statusMessage := "Please select a PDF file only.", isError := true }

/-- handleDrop: clears dragOver, then hands the first dropped file (when any)
to handleFileSelect. -/
def handleDrop (st : State) (files : List JFile) : State :=
match files with
| [] => { st with dragOver := false }
| f :: _ => handleFileSelect { st with dragOver := false } f

/-- handleFileInputChange: hands the first picked file (when any) to
handleFileSelect. -/
def handleFileInputChange (st : State) (files : List JFile) : State :=
match files with
| [] => st
| f :: _ => handleFileSelect st f

/-- The multipart body of the POST /upload request: the file entries appended
to the FormData. -/
structure UploadRequest where
files : List JFile
deriving DecidableEq, Repr

/-- Outcome of the POST /upload fetch; a non-ok response carries the optional
error field of its JSON payload. -/
inductive FetchResult
| ok
| httpError (error : Option String)
| networkError
deriving DecidableEq, Repr

/-- Result of one handleUpload invocation: the final component state, the
request that was issued (none when the guard `if (!selectedFile) return`
fired), and whether the onUploadSuccess callback was invoked. -/
structure UploadOutcome where
state : State
request : Option UploadRequest
uploadSuccessCalled : Bool
deriving DecidableEq, Repr

/-- handleUpload: returns immediately with no request when no file is
selected; otherwise appends the one selected file to the FormData and posts
it.  On ok it sets the success status and schedules onUploadSuccess; on a
non-ok response it shows `data.error || 'Upload failed. Please try again.'`;
on a network error it shows the network error text. -/
def handleUpload (st : State) (res : FetchResult) : UploadOutcome :=
match st.selectedFile with
| none => { state := st, request := none, uploadSuccessCalled := false }
| some f =>
  match res with
  | .ok =>
      { state := { st with
            isUploading := false,
            statusMessage := "PDF uploaded and processed successfully!",
            isError := false },
        request := some { files := [f] },
        uploadSuccessCalled := true }
  | .httpError e =>
      { state := { st with
            isUploading := false,
            statusMessage := jsOr e "Upload failed. Please try again.",
            isError := true },
        request := some { files := [f] },
        uploadSuccessCalled := false }
  | .networkError =>
      { state := { st with
            isUploading := false,
            statusMessage := "Network error. Please check if the server is running.",
            isError := true },
        request := some { files := [f] },
        uploadSuccessCalled := false }

/-- Invariant: the selected file, when present, is a PDF. -/
def pdfInv (st : State) : Prop :=
∀ f, st.selectedFile = some f → f.type = "application/pdf"

end UploadView

namespace IndexPage

/-- The appState union type of Index.tsx. -/
inductive AppState
| upload
| dashboard
deriving DecidableEq, Repr

/-- The page-level state: appState of Index plus the activeTab state of
DashboardView. -/
structure PageState where
appState : AppState
activeTab : String
deriving DecidableEq, Repr

/-- Initial page state: appState 'upload', activeTab 'summary'. -/
def initPage : PageState :=
{ appState := .upload, activeTab := "summary" }

/-- handleUploadSuccess of Index.tsx: the only call of setAppState in the
application, always to 'dashboard'. -/
def handleUploadSuccess (st : PageState) : PageState :=
{ st with appState := .dashboard }

/-- The state-updating callbacks reachable from Index and DashboardView that
could touch the page-level state: the upload success callback, the tab
buttons, and the tab components' own events (which update only their local
state, never appState or activeTab). -/
inductive Event
| uploadSuccess
| setActiveTab (tab : String)
| tabLocalEvent
deriving DecidableEq, Repr

/-- One page-level transition. -/
def step (st : PageState) (e : Event) : PageState :=
match e with
| .uploadSuccess => handleUploadSuccess st
| .setActiveTab t => { st with activeTab := t }
| .tabLocalEvent => st

/-- The top-level render branch of Index.tsx. -/
inductive View
| uploadView
| dashboardView
deriving DecidableEq, Repr

/-- Index renders UploadView exactly when appState is 'upload'. -/
def render (st : PageState) : View :=
match st.appState with
| .upload => .uploadView
| .dashboard => .dashboardView

end IndexPage

namespace Backend

open QuizTab

/-- Modelled from the spec: the Generator's per-question quiz validation
(the Flask/LangChain backend is not under src).  "options set is non-empty
and of the declared size, `answer` is exactly one of `options`". -/
def validQuizQuestion (optionCount : Nat) (q : QuizQuestion) : Bool :=
!q.options.isEmpty && q.options.length = optionCount && q.options.contains q.answer

/-- Error surfaced when quiz generation output failed schema validation after
the bounded retries. -/
inductive GenError
| generationFormatError
deriving DecidableEq, Repr

/-- Modelled from the spec: the Generator's quiz path.  Each candidate is one
LLM completion, `none` when it failed to parse as the required JSON shape.
The Generator takes candidates in order (the bounded corrective retries) and
returns the first list whose questions all validate; when the candidates are
exhausted it surfaces GenerationFormatError. -/
def generateQuiz (optionCount : Nat) :
    List (Option (List QuizQuestion)) → Except GenError (List QuizQuestion)
| [] => .error .generationFormatError
| none :: rest => generateQuiz optionCount rest
| some c :: rest =>
    if c.all (validQuizQuestion optionCount) then .ok c
    else generateQuiz optionCount rest

/-- Structured error of the quiz operation at the exposed interface. -/
inductive QuizError
| badNumQuestions
| badDifficulty
| generationFailed
deriving DecidableEq, Repr

/-- Modelled from the spec: the quiz operation validates its task_params
(difficulty in Easy/Medium/Hard, num_questions an integer in [1, 20]) before
any generation call; `gen` stands for the retrieval+prompt+generation stage
invoked only after validation passes. -/
def quizEndpoint (gen : String → Int → Except GenError (List QuizQuestion))
    (difficulty : String) (num_questions : Int) :
    Except QuizError (List QuizQuestion) :=
if 1 ≤ num_questions ∧ num_questions ≤ 20 then
  if difficulty = "Easy" ∨ difficulty = "Medium" ∨ difficulty = "Hard" then
    match gen difficulty num_questions with
    | .ok qs => .ok qs
    | .error _ => .error .generationFailed
  else .error .badDifficulty
else .error .badNumQuestions

end Backend

/-- A generation stage that always succeeds with the empty list, for the C2
witness. -/
def constGen : String → Int → Except Backend.GenError (List QuizTab.QuizQuestion) :=
fun _ _ => .ok []

/-
Theorems settling the claims.
-/

/-- Helper: a validated quiz question has its answer among its options and
the declared option count. -/
theorem validQuizQuestion_spec (optionCount : Nat) (q : QuizTab.QuizQuestion)
    (h : Backend.validQuizQuestion optionCount q = true) :
    q.answer ∈ q.options ∧ q.options.length = optionCount := by
unfold Backend.validQuizQuestion at h
simp only [Bool.and_eq_true, decide_eq_true_eq] at h
exact ⟨by simpa using h.2, h.1.2⟩

/-- C1: for every QuizQuestion list the quiz operation returns to the
caller, each question's answer string is a member of its options list and
the options list has exactly the configured option count (the Generator
validation rejects candidates violating this and retries). -/
theorem C1_quiz_questions_valid (optionCount : Nat)
    (cands : List (Option (List QuizTab.QuizQuestion)))
    (qs : List QuizTab.QuizQuestion)
    (h : Backend.generateQuiz optionCount cands = .ok qs) :
    ∀ q ∈ qs, q.answer ∈ q.options ∧ q.options.length = optionCount := by
induction cands with
| nil => exact absurd h (by simp [Backend.generateQuiz])
| cons c rest ih =>
  cases c with
  | none =>
    simp only [Backend.generateQuiz] at h
    exact ih h
  | some c =>
    simp only [Backend.generateQuiz] at h
    by_cases hv : c.all (Backend.validQuizQuestion optionCount) = true
    · rw [if_pos hv] at h
      cases h
      intro q hq
      exact validQuizQuestion_spec optionCount q (List.all_eq_true.mp hv q hq)
    · rw [if_neg hv] at h
      exact ih h

/-- Witness for C1 at a concrete validated generation. -/
theorem C1_witness :
    ("B" ∈ ["A", "B", "C", "D"]) ∧ (["A", "B", "C", "D"].length = 4) := by
have h := C1_quiz_questions_valid 4
    [some [{ question := "Q1", options := ["A", "B", "C", "D"], answer := "B" }]]
    [{ question := "Q1", options := ["A", "B", "C", "D"], answer := "B" }] rfl
exact h { question := "Q1", options := ["A", "B", "C", "D"], answer := "B" } (by simp)

/-- C2: the quiz operation validates num_questions in [1, 20] before any
generation call: with num_questions 0 or above 20 it rejects the request,
and the result does not depend on the generation stage at all (the Generator
is never reached); with num_questions 1 or 20 and a valid difficulty the
request goes through to generation and succeeds when generation does. -/
theorem C2_num_questions_validated :
    (∀ g₁ g₂ : String → Int → Except Backend.GenError (List QuizTab.QuizQuestion),
      ∀ d, Backend.quizEndpoint g₁ d 0 = .error .badNumQuestions ∧
        Backend.quizEndpoint g₁ d 0 = Backend.quizEndpoint g₂ d 0) ∧
    (∀ g₁ g₂ : String → Int → Except Backend.GenError (List QuizTab.QuizQuestion),
      ∀ d n, 20 < n → Backend.quizEndpoint g₁ d n = .error .badNumQuestions ∧
        Backend.quizEndpoint g₁ d n = Backend.quizEndpoint g₂ d n) ∧
    (∀ g d qs, (d = "Easy" ∨ d = "Medium" ∨ d = "Hard") → g d 1 = .ok qs →
      Backend.quizEndpoint g d 1 = .ok qs) ∧
    (∀ g d qs, (d = "Easy" ∨ d = "Medium" ∨ d = "Hard") → g d 20 = .ok qs →
      Backend.quizEndpoint g d 20 = .ok qs) := by
refine ⟨?_, ?_, ?_, ?_⟩
· intro g₁ g₂ d
  constructor
  · simp [Backend.quizEndpoint]
  · simp [Backend.quizEndpoint]
· intro g₁ g₂ d n hn
  have hcond : ¬ ((1 : Int) ≤ n ∧ n ≤ 20) := fun hc => absurd hc.2 (not_le.mpr hn)
  constructor
  · simp [Backend.quizEndpoint, hcond]
  · simp [Backend.quizEndpoint, hcond]
· intro g d qs hd hg
  have hcond : (1 : Int) ≤ 1 ∧ (1 : Int) ≤ 20 := by norm_num
  simp [Backend.quizEndpoint, hcond, hd, hg]
· intro g d qs hd hg
  have hcond : (1 : Int) ≤ 20 ∧ (20 : Int) ≤ 20 := by norm_num
  simp [Backend.quizEndpoint, hcond, hd, hg]

/-- Witness for C2 at concrete boundary inputs. -/
theorem C2_witness :
    Backend.quizEndpoint constGen "Medium" 0 = .error .badNumQuestions ∧
    Backend.quizEndpoint constGen "Medium" 21 = .error .badNumQuestions ∧
    Backend.quizEndpoint constGen "Medium" 1 = .ok [] ∧
    Backend.quizEndpoint constGen "Medium" 20 = .ok [] := by
refine ⟨(C2_num_questions_validated.1 constGen constGen "Medium").1,
    (C2_num_questions_validated.2.1 constGen constGen "Medium" 21 (by norm_num)).1,
    C2_num_questions_validated.2.2.1 constGen "Medium" [] (Or.inr (Or.inl rfl)) rfl,
    C2_num_questions_validated.2.2.2 constGen "Medium" [] (Or.inr (Or.inl rfl)) rfl⟩

/-- Helper: `a.error || fallback` is non-empty whenever the fallback is. -/
theorem jsOr_ne_empty (a : Option String) (b : String) (hb : b ≠ "") :
    jsOr a b ≠ "" := by
cases a with
| none => simpa [jsOr] using hb
| some s =>
  by_cases hs : s = ""
  · simpa [jsOr, hs] using hb
  · simp [jsOr, hs]

/-- C3 as stated is false on the code: a failed quiz generation leaves the
QuizTab component state exactly equal to the initial never-requested state,
so the failure is not user-visible, and the server-error and network-error
failure kinds leave identical states, so the kind is not distinguished. -/
theorem C3_counterexample :
    (QuizTab.handleGenerateQuiz QuizTab.initState
        (.httpError "Failed to generate quiz")).1 = QuizTab.initState ∧
    (QuizTab.handleGenerateQuiz QuizTab.initState
        (.httpError "Failed to generate quiz")).1 =
      (QuizTab.handleGenerateQuiz QuizTab.initState .networkError).1 :=
⟨rfl, rfl⟩

/-- C3 amended: failures of upload, summary and explain each produce a
non-empty user-visible message without crashing (summary and explain with
fixed texts that distinguish the server-error and network-error kinds,
upload with the server-provided error or a fixed fallback, marked as an
error); a quiz failure is caught without crashing, resets the quiz state to
idle, and reports the error only on the console. -/
theorem C3_amended :
    (∀ st f e, st.selectedFile = some f →
      (UploadView.handleUpload st (.httpError e)).state.statusMessage ≠ "" ∧
      (UploadView.handleUpload st (.httpError e)).state.isError = true ∧
      (UploadView.handleUpload st .networkError).state.statusMessage ≠ "" ∧
      (UploadView.handleUpload st .networkError).state.isError = true) ∧
    (∀ st, (SummaryTab.handleGenerateSummary st .httpError).summary ≠ "" ∧
      (SummaryTab.handleGenerateSummary st .networkError).summary ≠ "" ∧
      (SummaryTab.handleGenerateSummary st .httpError).summary ≠
        (SummaryTab.handleGenerateSummary st .networkError).summary) ∧
    (∀ st, (ExplainTab.handleExplainResult st .httpError).explanation ≠ "" ∧
      (ExplainTab.handleExplainResult st .networkError).explanation ≠ "" ∧
      (ExplainTab.handleExplainResult st .httpError).explanation ≠
        (ExplainTab.handleExplainResult st .networkError).explanation) ∧
    (∀ st e, (QuizTab.handleGenerateQuiz st (.httpError e)).1 =
        { st with quiz := [], visibleAnswers := [], isLoading := false } ∧
      (QuizTab.handleGenerateQuiz st (.httpError e)).2 =
        ["Error generating quiz: " ++ e]) := by
refine ⟨?_, ?_, ?_, ?_⟩
· intro st f e h
  refine ⟨?_, ?_, ?_, ?_⟩
  · simp only [UploadView.handleUpload, h]
    exact jsOr_ne_empty e "Upload failed. Please try again." (by decide)
  · simp [UploadView.handleUpload, h]
  · simp [UploadView.handleUpload, h]
  · simp [UploadView.handleUpload, h]
· intro st
  exact ⟨by simp [SummaryTab.handleGenerateSummary],
    by simp [SummaryTab.handleGenerateSummary],
    by simp [SummaryTab.handleGenerateSummary]⟩
· intro st
  exact ⟨by simp [ExplainTab.handleExplainResult],
    by simp [ExplainTab.handleExplainResult],
    by simp [ExplainTab.handleExplainResult]⟩
· intro st e
  exact ⟨rfl, rfl⟩

/-- Witness for C3 amended at concrete states. -/
theorem C3_amended_witness :
    (UploadView.handleUpload
      { UploadView.initState with
          selectedFile := some { name := "notes.pdf", type := "application/pdf", size := 9 } }
      (.httpError none)).state.statusMessage ≠ "" := by
exact (C3_amended.1
    { UploadView.initState with
        selectedFile := some { name := "notes.pdf", type := "application/pdf", size := 9 } }
    { name := "notes.pdf", type := "application/pdf", size := 9 } none rfl).1

/-- C4: an explain request is only issued when the entered question is
non-empty after trimming, and the issued request's query parameter then
trims to a non-empty string; an empty or whitespace-only question issues no
request at all. -/
theorem C4_explain_query_nonempty :
    (∀ st r, ExplainTab.explainRequest st = some r → jsTrim r.query ≠ "") ∧
    (∀ st, jsTrim st.conceptQuery = "" → ExplainTab.explainRequest st = none) := by
constructor
· intro st r h
  unfold ExplainTab.explainRequest at h
  by_cases hq : jsTrim st.conceptQuery = ""
  · rw [if_pos hq] at h
    exact absurd h (by simp)
  · rw [if_neg hq] at h
    cases h
    exact hq
· intro st h
  simp [ExplainTab.explainRequest, h]

/-- Witness for C4 at a concrete non-blank and a concrete blank query. -/
theorem C4_witness :
    jsTrim " What produces oxygen? " ≠ "" ∧
    ExplainTab.explainRequest
      { conceptQuery := "   ", explanation := "", isLoading := false } = none := by
refine ⟨C4_explain_query_nonempty.1
    { conceptQuery := " What produces oxygen? ", explanation := "", isLoading := false }
    { query := " What produces oxygen? " } ?_,
  C4_explain_query_nonempty.2
    { conceptQuery := "   ", explanation := "", isLoading := false } ?_⟩
· rfl
· rfl

/-- C5: handleUpload issues no request when no file is selected; with a
selected file it issues one request holding exactly that one file, ends
with a non-empty status message on every outcome, and invokes the
onUploadSuccess callback (the dashboard transition) exactly on the ok
outcome. -/
theorem C5_upload_contract :
    (∀ st res, st.selectedFile = none →
      UploadView.handleUpload st res =
        { state := st, request := none, uploadSuccessCalled := false }) ∧
    (∀ st f res, st.selectedFile = some f →
      (UploadView.handleUpload st res).request = some { files := [f] } ∧
      (∀ r, (UploadView.handleUpload st res).request = some r → r.files.length = 1) ∧
      (UploadView.handleUpload st res).state.statusMessage ≠ "" ∧
      ((UploadView.handleUpload st res).uploadSuccessCalled = true ↔
        res = .ok)) := by
constructor
· intro st res h
  simp [UploadView.handleUpload, h]
· intro st f res h
  cases res with
  | ok =>
    refine ⟨by simp [UploadView.handleUpload, h], ?_, by simp [UploadView.handleUpload, h], by simp [UploadView.handleUpload, h]⟩
    intro r hr
    simp only [UploadView.handleUpload, h] at hr
    cases hr
    rfl
  | httpError e =>
    refine ⟨by simp [UploadView.handleUpload, h], ?_, ?_, by simp [UploadView.handleUpload, h]⟩
    · intro r hr
      simp only [UploadView.handleUpload, h] at hr
      cases hr
      rfl
    · simp only [UploadView.handleUpload, h]
      exact jsOr_ne_empty e "Upload failed. Please try again." (by decide)
  | networkError =>
    refine ⟨by simp [UploadView.handleUpload, h], ?_, by simp [UploadView.handleUpload, h], by simp [UploadView.handleUpload, h]⟩
    intro r hr
    simp only [UploadView.handleUpload, h] at hr
    cases hr
    rfl

/-- Witness for C5 at a concrete state and outcome. -/
theorem C5_witness :
    (UploadView.handleUpload
      { UploadView.initState with
          selectedFile := some { name := "doc.pdf", type := "application/pdf", size := 3 } }
      .ok).uploadSuccessCalled = true := by
exact ((C5_upload_contract.2
    { UploadView.initState with
        selectedFile := some { name := "doc.pdf", type := "application/pdf", size := 3 } }
    { name := "doc.pdf", type := "application/pdf", size := 3 } .ok rfl).2.2.2).mpr rfl

/-- Helper: folding select change events keeps the difficulty among the
select's option values when the start value and every event value are
option values. -/
theorem difficulty_foldl_mem (init : String) (evs : List String)
    (hinit : init ∈ QuizTab.difficultyOptions)
    (hevs : ∀ v ∈ evs, v ∈ QuizTab.difficultyOptions) :
    evs.foldl (fun _ v => QuizTab.onDifficultyChange v) init ∈
      QuizTab.difficultyOptions := by
induction evs generalizing init with
| nil => simpa using hinit
| cons v t ih =>
  simp only [List.foldl_cons]
  exact ih (QuizTab.onDifficultyChange v) (hevs v (by simp))
    (fun w hw => hevs w (by simp [hw]))

/-- C6: the difficulty sent with a quiz request is always one of Easy,
Medium, Hard: the request carries the quizDifficulty state, which starts at
Medium and is only ever set to an option value of the select element. -/
theorem C6_difficulty_in_set :
    QuizTab.initialDifficulty ∈ QuizTab.difficultyOptions ∧
    (∀ evs, (∀ v ∈ evs, v ∈ QuizTab.difficultyOptions) →
      QuizTab.difficultyAfter evs ∈ QuizTab.difficultyOptions) ∧
    (∀ st, (QuizTab.quizRequestOf st).difficulty = st.quizDifficulty) := by
refine ⟨by decide, ?_, fun st => rfl⟩
intro evs hevs
exact difficulty_foldl_mem QuizTab.initialDifficulty evs (by decide) hevs

/-- Witness for C6 at a concrete event sequence. -/
theorem C6_witness :
    QuizTab.difficultyAfter ["Hard", "Easy"] ∈ QuizTab.difficultyOptions := by
exact C6_difficulty_in_set.2.1 ["Hard", "Easy"] (by decide)

/-- C7: the summary request is a GET with no body and no query string, and a
good response's summary field is stored and rendered verbatim. -/
theorem C7_summary_no_params :
    SummaryTab.summaryRequest.method = HttpMethod.get ∧
    SummaryTab.summaryRequest.body = none ∧
    '?' ∉ SummaryTab.summaryRequest.url.data ∧
    (∀ st s, (SummaryTab.handleGenerateSummary st (.ok s)).summary = s) ∧
    (∀ st s, s ≠ "" →
      SummaryTab.render (SummaryTab.handleGenerateSummary st (.ok s)) = .text s) := by
refine ⟨rfl, rfl, by decide, fun st s => rfl, ?_⟩
intro st s hs
simp [SummaryTab.render, SummaryTab.handleGenerateSummary, hs]

/-- Witness for C7 at a concrete response. -/
theorem C7_witness :
    SummaryTab.render
      (SummaryTab.handleGenerateSummary SummaryTab.initState (.ok "A summary.")) =
    .text "A summary." := by
exact C7_summary_no_params.2.2.2.2 SummaryTab.initState "A summary." (by decide)

/-- C8: after any change event on the question-count input, the stored value
is never 0 (and never NaN, modelled as the parse-failure case): a value
parsing to 0 or failing to parse is coerced to the default 5; any other
parsed integer, including negatives and values above 20, is stored
unchanged. -/
theorem C8_num_questions_coercion (s : String) :
    QuizTab.onNumQuestionsChange s ≠ 0 ∧
    (jsParseInt s = none → QuizTab.onNumQuestionsChange s = 5) ∧
    (jsParseInt s = some 0 → QuizTab.onNumQuestionsChange s = 5) ∧
    (∀ n : Int, jsParseInt s = some n → n ≠ 0 →
      QuizTab.onNumQuestionsChange s = n) := by
unfold QuizTab.onNumQuestionsChange
cases hp : jsParseInt s with
| none =>
  exact ⟨by decide, fun _ => rfl, fun h => Option.noConfusion h,
    fun n h => Option.noConfusion h⟩
| some n =>
  refine ⟨?_, fun h => Option.noConfusion h, ?_, ?_⟩
  · by_cases hn : n = 0
    · simp [hn]
    · simp [hn]
  · intro h
    injection h with h
    simp [h]
  · intro m hm hmne
    injection hm with hm
    subst hm
    simp [hmne]

/-- Witness for C8 at concrete input strings. -/
theorem C8_witness :
    QuizTab.onNumQuestionsChange "0" = 5 ∧
    QuizTab.onNumQuestionsChange "abc" = 5 ∧
    QuizTab.onNumQuestionsChange "-3" = -3 ∧
    QuizTab.onNumQuestionsChange "25" = 25 := by
refine ⟨(C8_num_questions_coercion "0").2.2.1 (by decide),
  (C8_num_questions_coercion "abc").2.1 (by decide),
  (C8_num_questions_coercion "-3").2.2.2 (-3) (by decide) (by decide),
  (C8_num_questions_coercion "25").2.2.2 25 (by decide) (by decide)⟩

/-- Helper: handleFileSelect keeps the selected file a PDF. -/
theorem handleFileSelect_pdfInv (st : UploadView.State) (f : JFile)
    (h : UploadView.pdfInv st) :
    UploadView.pdfInv (UploadView.handleFileSelect st f) := by
unfold UploadView.handleFileSelect
by_cases hf : f.type = "application/pdf"
· rw [if_pos hf]
  intro g hg
  injection hg with hg
  subst hg
  exact hf
· rw [if_neg hf]
  exact h

/-- C9: a file whose MIME type is not application/pdf is never selected and
never uploaded, via drag-and-drop or the file picker alike; such a selection
only sets the error status text and leaves the previous selection
unchanged. -/
theorem C9_non_pdf_never_selected :
    (∀ st f, f.type ≠ "application/pdf" →
      UploadView.handleFileSelect st f =
        { st with
            statusMessage := "Please select a PDF file only.",
            isError := true }) ∧
    (∀ st fs, UploadView.pdfInv st →
      UploadView.pdfInv (UploadView.handleDrop st fs)) ∧
    (∀ st fs, UploadView.pdfInv st →
      UploadView.pdfInv (UploadView.handleFileInputChange st fs)) ∧
    (∀ st res r, UploadView.pdfInv st →
      (UploadView.handleUpload st res).request = some r →
      ∀ f ∈ r.files, f.type = "application/pdf") := by
refine ⟨?_, ?_, ?_, ?_⟩
· intro st f hf
  unfold UploadView.handleFileSelect
  rw [if_neg hf]
· intro st fs h
  cases fs with
  | nil => exact h
  | cons f rest => exact handleFileSelect_pdfInv _ f h
· intro st fs h
  cases fs with
  | nil => exact h
  | cons f rest => exact handleFileSelect_pdfInv st f h
· intro st res r h hr
  cases hsel : st.selectedFile with
  | none =>
    simp only [UploadView.handleUpload, hsel] at hr
    exact nomatch hr
  | some f0 =>
    have hf0 : f0.type = "application/pdf" := h f0 hsel
    cases res with
    | ok =>
      simp only [UploadView.handleUpload, hsel] at hr
      injection hr with hr
      subst hr
      intro f hf
      rw [List.mem_singleton] at hf
      subst hf
      exact hf0
    | httpError e =>
      simp only [UploadView.handleUpload, hsel] at hr
      injection hr with hr
      subst hr
      intro f hf
      rw [List.mem_singleton] at hf
      subst hf
      exact hf0
    | networkError =>
      simp only [UploadView.handleUpload, hsel] at hr
      injection hr with hr
      subst hr
      intro f hf
      rw [List.mem_singleton] at hf
      subst hf
      exact hf0

/-- Witness for C9 at a concrete non-PDF file. -/
theorem C9_witness :
    UploadView.handleFileSelect UploadView.initState
      { name := "a.txt", type := "text/plain", size := 1 } =
    { UploadView.initState with
        statusMessage := "Please select a PDF file only.", isError := true } := by
exact C9_non_pdf_never_selected.1 UploadView.initState
    { name := "a.txt", type := "text/plain", size := 1 } (by decide)

/-- Helper: once the page state is dashboard, any sequence of page events
leaves it dashboard. -/
theorem dashboard_absorbing (st : IndexPage.PageState)
    (evs : List IndexPage.Event) (h : st.appState = .dashboard) :
    (evs.foldl IndexPage.step st).appState = .dashboard := by
induction evs generalizing st with
| nil => simpa using h
| cons e t ih =>
  simp only [List.foldl_cons]
  apply ih
  cases e with
  | uploadSuccess => rfl
  | setActiveTab tab => exact h
  | tabLocalEvent => exact h

/-- C10: the top-level appState only ever moves from upload to dashboard (on
upload success) and never back: no event maps a non-upload state to upload,
after reaching dashboard every event sequence stays in dashboard, and the
upload view is then never rendered again, so no second upload is possible in
the same page session. -/
theorem C10_no_return_to_upload :
    (∀ (st : IndexPage.PageState) (e : IndexPage.Event),
      (IndexPage.step st e).appState = .upload → st.appState = .upload) ∧
    (∀ (st : IndexPage.PageState) (evs : List IndexPage.Event),
      st.appState = .dashboard →
      (evs.foldl IndexPage.step st).appState = .dashboard) ∧
    (∀ (st : IndexPage.PageState) (evs : List IndexPage.Event),
      st.appState = .dashboard →
      IndexPage.render (evs.foldl IndexPage.step st) = .dashboardView) ∧
    (IndexPage.step IndexPage.initPage .uploadSuccess).appState = .dashboard := by
refine ⟨?_, ?_, ?_, rfl⟩
· intro st e h
  cases e with
  | uploadSuccess => exact nomatch h
  | setActiveTab tab => exact h
  | tabLocalEvent => exact h
· intro st evs h
  exact dashboard_absorbing st evs h
· intro st evs h
  have hd := dashboard_absorbing st evs h
  simp [IndexPage.render, hd]

/-- Witness for C10 at a concrete event sequence after a successful
upload. -/
theorem C10_witness :
    (([IndexPage.Event.setActiveTab "quiz", IndexPage.Event.tabLocalEvent]).foldl
      IndexPage.step (IndexPage.step IndexPage.initPage .uploadSuccess)).appState =
    .dashboard := by
exact C10_no_return_to_upload.2.1 (IndexPage.step IndexPage.initPage .uploadSuccess)
    [IndexPage.Event.setActiveTab "quiz", IndexPage.Event.tabLocalEvent] rfl

end MaPoGo
